import Mathlib

/-!
Shallow embedding of the ArgoCD backend router
(`src/plugins/backend/backstage-plugin-argo-cd-backend/src/service/router.ts`).

The router's handlers are modelled as pure functions over an environment that
records, as oracles, the results the external `ArgoService` client would return
(resolved value or thrown error) for each call the handler may make.  Each
handler returns its HTTP result together with the list of client calls it
performed, so that "the client is never invoked" claims are statable.
-/

namespace ArgoRouter

/-- The `Response` type of `router.ts` (lines 13-16): `{status, message}`,
both strings, mutated in place by the DELETE handler. -/
structure Response where
  status : String
  message : String
deriving DecidableEq, Repr

/-- One entry of `argoInstanceArray` (router.ts lines 37-43): name and url are
required strings, token/username/password are optional strings
(`getOptionalString`, `none` = absent). -/
structure ArgoInstance where
  name : String
  url : String
  token : Option String
  username : Option String
  password : Option String
deriving DecidableEq, Repr

/-- JS truthiness test used on `matchedArgoInstance.token` at
`if (!matchedArgoInstance.token)`: an absent string and the empty string are
falsy, any other string is truthy. -/
def optStrFalsy : Option String → Bool
  | none => true
  | some s => decide (s = "")

/-- Instance lookup, `argoInstanceArray.find(argoInstance => argoInstance.name
=== argoInstanceName)`: first entry whose name matches exactly (case
sensitive). -/
def matchInstance (argoInstanceArray : List ArgoInstance)
    (argoInstanceName : String) : Option ArgoInstance :=
  argoInstanceArray.find? (fun argoInstance =>
    decide (argoInstance.name = argoInstanceName))

/-- A thrown JS error as far as the router inspects it: `e.status` (a number,
or absent) and `e.message` (a string, or absent/non-string).  `typeof
e.message === 'string'` is modelled as `message.isSome`. -/
structure JsError where
  status : Option Nat
  message : Option String
deriving DecidableEq, Repr

/-- JS `e.message || fallback`: absent and the empty string fall back. -/
def jsOrStr : Option String → String → String
  | none, d => d
  | some s, d => if s = "" then d else s

/-- JS `e.status || fallback`: absent and `0` fall back. -/
def jsOrNum : Option Nat → Nat → Nat
  | none, d => d
  | some n, d => if n = 0 then d else n

/-- The result of one `argoSvc.getArgoAppData` call during the DELETE
handler's poll loop: either it resolved (and all the loop inspects is
`'metadata' in argoApp`), or it threw. -/
inductive FetchResult where
  | ok (hasMetadata : Bool)
  | err
deriving DecidableEq, Repr

/-- The result of the `argoSvc.deleteApp` call: either it resolved with a
boolean, or it threw an error whose `message` field may or may not be a
string. -/
inductive DeleteAppCallResult where
  | resolved (value : Bool)
  | thrown (message : Option String)
deriving DecidableEq, Repr

/-- The result of the `argoSvc.deleteProject` call: either it resolved, or it
threw an error whose `message` field may or may not be a string. -/
inductive DeleteProjResult where
  | resolved
  | thrown (message : Option String)
deriving DecidableEq, Repr

/-- State after the `try { deleteApp } catch` block (router.ts lines 229-247),
starting from `argoDeleteAppResp = {'', ''}`, `countinueToDeleteProject =
true`, `isAppexist = true`:
returns `(argoDeleteAppResp, countinueToDeleteProject, isAppexist)`.
`deleteAppResp === false` clears the continue flag and records a failed app
response; a thrown error with a string message clears `isAppexist` and records
the message; a thrown error without a string message changes nothing. -/
def step2 : DeleteAppCallResult → Response × Bool × Bool
  | DeleteAppCallResult.resolved false =>
      (⟨"failed", "error with deleteing argo app"⟩, false, true)
  | DeleteAppCallResult.resolved true => (⟨"", ""⟩, true, true)
  | DeleteAppCallResult.thrown (some m) => (⟨"failed", m⟩, true, false)
  | DeleteAppCallResult.thrown none => (⟨"", ""⟩, true, true)

/-- The poll loop `for (let attempts = 0; attempts < argoWaitCycles;
attempts++) { ... }` (router.ts lines 250-272), written with the remaining
iteration count as structural fuel: it is entered with `remaining =
waitCycles` and `attempts = 0`, so the loop guard `attempts < waitCycles`
holds exactly while `remaining > 0`.  Each iteration fetches
`polls attempts`:
on a resolved fetch it sets `isAppPendingDelete` to `hasMetadata` and, when
metadata is gone, records the success response and breaks; on a thrown fetch
it sets the failed "error getting argo app data" response only under the
literal source condition `attempts === argoWaitCycles`, then continues.
Returns `(argoDeleteAppResp, isAppPendingDelete, number of fetches made)`. -/
def pollLoop (polls : Nat → FetchResult) (argoWaitCycles : Nat) :
    Nat → Nat → Response → Bool → Response × Bool × Nat
  | 0, attempts, appResp, pending => (appResp, pending, attempts)
  | remaining + 1, attempts, appResp, pending =>
    match polls attempts with
    | FetchResult.ok hasMetadata =>
      if hasMetadata then
        pollLoop polls argoWaitCycles remaining (attempts + 1) appResp true
      else
        (⟨"success", "application is deleted successfully"⟩, false,
          attempts + 1)
    | FetchResult.err =>
      let appResp2 :=
        if attempts = argoWaitCycles then
          (⟨"failed", "error getting argo app data"⟩ : Response)
        else appResp
      pollLoop polls argoWaitCycles remaining (attempts + 1) appResp2 pending

/-- Result of the whole DELETE workflow (router.ts lines 219-304): the two
response records sent back, plus the number of `getArgoAppData` poll calls
made and whether `deleteProject` was invoked. -/
structure WorkflowResult where
  argoDeleteAppResp : Response
  argoDeleteProjectResp : Response
  fetchCount : Nat
  projectDeleteCalled : Bool
deriving DecidableEq, Repr

/-- The project-deletion decision block (router.ts lines 274-300), taking the
flags and the app response as they stand after the poll: under
`isAppPendingDelete && isAppexist` both responses are overwritten with the
pending-delete failures and `deleteProject` is not called; else under
`countinueToDeleteProject` the `deleteProject` call is made (success message,
the caught error's string message, or the generic project-error message); else
the project is skipped with the "due to erro deleting argo app" message. -/
def projectDecision (isAppPendingDelete isAppexist countinueToDeleteProject :
    Bool) (argoDeleteAppResp : Response) (fetches : Nat)
    (dpr : DeleteProjResult) : WorkflowResult :=
  if isAppPendingDelete && isAppexist then
    { argoDeleteAppResp := ⟨"failed", "application pending delete"⟩
      argoDeleteProjectResp :=
        ⟨"failed", "skipping project deletion due to app deletion pending"⟩
      fetchCount := fetches
      projectDeleteCalled := false }
  else if countinueToDeleteProject then
    match dpr with
    | DeleteProjResult.resolved =>
        { argoDeleteAppResp := argoDeleteAppResp
          argoDeleteProjectResp :=
            ⟨"success", "project is deleted successfully"⟩
          fetchCount := fetches
          projectDeleteCalled := true }
    | DeleteProjResult.thrown (some m) =>
        { argoDeleteAppResp := argoDeleteAppResp
          argoDeleteProjectResp := ⟨"failed", m⟩
          fetchCount := fetches
          projectDeleteCalled := true }
    | DeleteProjResult.thrown none =>
        { argoDeleteAppResp := argoDeleteAppResp
          argoDeleteProjectResp :=
            ⟨"failed", "error with deleteing argo project"⟩
          fetchCount := fetches
          projectDeleteCalled := true }
  else
    { argoDeleteAppResp := argoDeleteAppResp
      argoDeleteProjectResp :=
        ⟨"failed", "skipping project deletion due to erro deleting argo app"⟩
      fetchCount := fetches
      projectDeleteCalled := false }

/-- The deletion orchestrator (router.ts lines 219-304), after instance and
token resolution: runs `step2` on the `deleteApp` result, polls only under
`if (isAppexist)`, then takes the project decision of lines 274-300. -/
def deleteWorkflow (argoWaitCycles : Nat) (dar : DeleteAppCallResult)
    (polls : Nat → FetchResult) (dpr : DeleteProjResult) : WorkflowResult :=
  let s := step2 dar
  let countinueToDeleteProject := s.2.1
  let isAppexist := s.2.2
  let pr :=
    if isAppexist then pollLoop polls argoWaitCycles argoWaitCycles 0 s.1 false
    else (s.1, false, 0)
  projectDecision pr.2.1 isAppexist countinueToDeleteProject pr.1 pr.2.2 dpr

/-- Whether, for the given Delete-request oracles, the poll loop ends with the
application still pending delete: the app was considered to exist (so the loop
ran) and `isAppPendingDelete` is true when the loop exits. -/
def appStillPending (argoWaitCycles : Nat) (dar : DeleteAppCallResult)
    (polls : Nat → FetchResult) : Bool :=
  (step2 dar).2.2 &&
    (pollLoop polls argoWaitCycles argoWaitCycles 0 (step2 dar).1 false).2.1

/-- Tags for the `ArgoService` client calls a handler can make. -/
inductive ClientCall where
  | getArgoToken
  | getArgoAppData
  | createArgoProject
  | createArgoApplication
  | deleteApp
  | deleteProject
deriving DecidableEq, Repr

/-- A JSON field value as the router produces it: a string, a number, or a
JS `undefined` (a field assigned a missing error property). -/
inductive JsonVal where
  | str (s : String)
  | num (n : Nat)
  | undef
deriving DecidableEq, Repr

/-- Field value for `message: e.message` style assignments. -/
def jsonOfOptStr : Option String → JsonVal
  | none => JsonVal.undef
  | some s => JsonVal.str s

/-- Field value for `status: e.status` style assignments. -/
def jsonOfOptNat : Option Nat → JsonVal
  | none => JsonVal.undef
  | some n => JsonVal.num n

/-- Application data returned by `getArgoAppData`: whether the `'metadata'`
key is present, plus the rest of the payload, uninterpreted. -/
structure AppData where
  hasMetadata : Bool
  payload : String
deriving DecidableEq, Repr

/-- A JSON response body the router sends: a `{status, message}` object, raw
application data, the `/createArgo` success object, or the DELETE handler's
composite object. -/
inductive RespBody where
  | statusMessage (status : JsonVal) (message : JsonVal)
  | appData (d : AppData)
  | createSuccess (argoProjectName argoAppName kubernetesNamespace : String)
  | composite (argoDeleteAppResp argoDeleteProjectResp : Response)
deriving DecidableEq, Repr

/-- Outcome of one request: an HTTP response with a status code and body, or
an error that escaped the handler to the express error middleware. -/
inductive HandlerResult where
  | http (statusCode : Nat) (body : RespBody)
  | escaped (e : JsError)
deriving DecidableEq, Repr

/-- The `response.status(500).send({status: 'failed', message: 'cannot find an
argo instance to match this cluster'})` result produced by every
instance-scoped handler when `matchInstance` finds nothing. -/
def instanceNotFoundResult : HandlerResult :=
  HandlerResult.http 500
    (RespBody.statusMessage (JsonVal.str "failed")
      (JsonVal.str "cannot find an argo instance to match this cluster"))

/-- The token step shared by the instance-scoped handlers: `if
(!matchedArgoInstance.token) token = await argoSvc.getArgoToken(...)` else the
static token.  Returns the token outcome (the `getArgoToken` oracle when a
login is needed, the static token otherwise) and the client calls made. -/
def resolveToken (matched : ArgoInstance)
    (getArgoTokenResult : Except JsError String) :
    Except JsError String × List ClientCall :=
  if optStrFalsy matched.token then
    (getArgoTokenResult, [ClientCall.getArgoToken])
  else
    (Except.ok (matched.token.getD ""), [])

/-- Query parameter of `getArgoAppData`: `{name}` or `{selector}`. -/
inductive AppQuery where
  | byName (name : String)
  | bySelector (selector : String)
deriving DecidableEq, Repr

/-- Environment for the two instance-scoped GET routes
(`/argoInstance/:argoInstanceName/applications/name/:argoAppName`, router.ts
lines 48-78, and `.../selector/:argoAppSelector`, lines 83-114): the two
handler bodies are identical except for the query built from the path
parameter, carried here in `query`. -/
structure GetAppEnv where
  argoInstanceArray : List ArgoInstance
  argoInstanceName : String
  query : AppQuery
  getArgoTokenResult : Except JsError String
  getArgoAppDataResult : Except JsError AppData

/-- The instance-scoped GET handlers: instance lookup (500 on failure), token
resolution (an error here is uncaught and escapes), then `getArgoAppData`
(also uncaught on error) whose data is sent back. -/
def getArgoAppHandler (env : GetAppEnv) : HandlerResult × List ClientCall :=
  match matchInstance env.argoInstanceArray env.argoInstanceName with
  | none => (instanceNotFoundResult, [])
  | some matched =>
    let tokStep := resolveToken matched env.getArgoTokenResult
    match tokStep.1 with
    | Except.error e => (HandlerResult.escaped e, tokStep.2)
    | Except.ok _ =>
      match env.getArgoAppDataResult with
      | Except.error e =>
          (HandlerResult.escaped e, tokStep.2 ++ [ClientCall.getArgoAppData])
      | Except.ok d =>
          (HandlerResult.http 200 (RespBody.appData d),
            tokStep.2 ++ [ClientCall.getArgoAppData])

/-- Environment for the `/createArgo` POST route (router.ts lines 115-185):
request-body fields and the oracles for the three client calls it can make. -/
structure CreateArgoEnv where
  argoInstanceArray : List ArgoInstance
  clusterName : String
  namespaceName : String
  projectName : String
  appName : String
  labelValue : String
  sourceRepo : String
  sourcePath : String
  getArgoTokenResult : Except JsError String
  createArgoProjectResult : Except JsError Unit
  createArgoApplicationResult : Except JsError Unit

/-- The `/createArgo` handler: instance lookup (500 on failure); token
resolution whose error is caught and sent as `status(e.status || 500)` with
body `{status: e.status, message: e.message}`; `createArgoProject` whose error
is caught and sent as `status(e.status || 500)` with body `{status: e.status,
message: e.message || 'Failed to create argo project'}`; then
`createArgoApplication`, sending the success object or `status(500)` with
body `{status: 500, message: e.message || 'Failed to create argo app'}`. -/
def createArgoHandler (env : CreateArgoEnv) : HandlerResult × List ClientCall :=
  match matchInstance env.argoInstanceArray env.clusterName with
  | none => (instanceNotFoundResult, [])
  | some matched =>
    let tokStep := resolveToken matched env.getArgoTokenResult
    match tokStep.1 with
    | Except.error e =>
        (HandlerResult.http (jsOrNum e.status 500)
          (RespBody.statusMessage (jsonOfOptNat e.status)
            (jsonOfOptStr e.message)), tokStep.2)
    | Except.ok _ =>
      match env.createArgoProjectResult with
      | Except.error e =>
          (HandlerResult.http (jsOrNum e.status 500)
            (RespBody.statusMessage (jsonOfOptNat e.status)
              (JsonVal.str (jsOrStr e.message "Failed to create argo project"))),
            tokStep.2 ++ [ClientCall.createArgoProject])
      | Except.ok _ =>
        match env.createArgoApplicationResult with
        | Except.ok _ =>
            (HandlerResult.http 200
              (RespBody.createSuccess env.projectName env.appName
                env.namespaceName),
              tokStep.2 ++ [ClientCall.createArgoProject,
                ClientCall.createArgoApplication])
        | Except.error e =>
            (HandlerResult.http 500
              (RespBody.statusMessage (JsonVal.num 500)
                (JsonVal.str (jsOrStr e.message "Failed to create argo app"))),
              tokStep.2 ++ [ClientCall.createArgoProject,
                ClientCall.createArgoApplication])

/-- Environment for the DELETE route
(`/argoInstance/:argoInstanceName/applications/:argoAppName`, router.ts lines
198-306). -/
structure DeleteArgoEnv where
  argoInstanceArray : List ArgoInstance
  argoInstanceName : String
  argoAppName : String
  argoWaitCycles : Nat
  getArgoTokenResult : Except JsError String
  deleteAppResult : DeleteAppCallResult
  polls : Nat → FetchResult
  deleteProjectResult : DeleteProjResult

/-- The DELETE handler: instance lookup (500 on failure), token resolution
(uncaught on error), then the deletion workflow, whose composite result is
always sent with the default 200 status. -/
def deleteArgoHandler (env : DeleteArgoEnv) : HandlerResult × List ClientCall :=
  match matchInstance env.argoInstanceArray env.argoInstanceName with
  | none => (instanceNotFoundResult, [])
  | some matched =>
    let tokStep := resolveToken matched env.getArgoTokenResult
    match tokStep.1 with
    | Except.error e => (HandlerResult.escaped e, tokStep.2)
    | Except.ok _ =>
      let w := deleteWorkflow env.argoWaitCycles env.deleteAppResult env.polls
        env.deleteProjectResult
      (HandlerResult.http 200
        (RespBody.composite w.argoDeleteAppResp w.argoDeleteProjectResp),
        tokStep.2 ++ [ClientCall.deleteApp]
          ++ List.replicate w.fetchCount ClientCall.getArgoAppData
          ++ (if w.projectDeleteCalled then [ClientCall.deleteProject] else []))

/-! Lemmas about the poll loop and the project decision. -/

/-- The success response the poll loop writes when metadata disappears. -/
def pollSuccessResp : Response :=
  ⟨"success", "application is deleted successfully"⟩

theorem pollLoop_fst_eq_or (polls : Nat → FetchResult) (w : Nat) :
    ∀ (remaining attempts : Nat) (r : Response) (p : Bool),
      attempts + remaining ≤ w →
      (pollLoop polls w remaining attempts r p).1 = r ∨
        (pollLoop polls w remaining attempts r p).1 = pollSuccessResp := by
  intro remaining
  induction remaining with
  | zero => intro attempts r p _; exact Or.inl rfl
  | succ n ih =>
    intro attempts r p h
    have hne : ¬ attempts = w := by omega
    simp only [pollLoop]
    cases hpoll : polls attempts with
    | ok hasMetadata =>
      cases hasMetadata with
      | false => exact Or.inr rfl
      | true => exact ih (attempts + 1) r true (by omega)
    | err =>
      simp only [hne, if_false]
      exact ih (attempts + 1) r p (by omega)

theorem pollLoop_all_meta (polls : Nat → FetchResult) (w : Nat) :
    ∀ (remaining attempts : Nat) (r : Response) (p : Bool),
      0 < remaining →
      (∀ j, attempts ≤ j → j < attempts + remaining →
        polls j = FetchResult.ok true) →
      pollLoop polls w remaining attempts r p = (r, true, attempts + remaining) := by
  intro remaining
  induction remaining with
  | zero => intro attempts r p h _; omega
  | succ n ih =>
    intro attempts r p _ hall
    have hcur : polls attempts = FetchResult.ok true :=
      hall attempts (Nat.le_refl _) (by omega)
    simp only [pollLoop, hcur, if_true]
    cases n with
    | zero => simp [pollLoop]
    | succ m =>
      have := ih (attempts + 1) r true (by omega)
        (fun j hj1 hj2 => hall j (by omega) (by omega))
      rw [this]
      have harith : attempts + 1 + (m + 1) = attempts + (m + 1 + 1) := by omega
      rw [harith]

theorem pollLoop_all_err (polls : Nat → FetchResult) (w : Nat) :
    ∀ (remaining attempts : Nat) (r : Response) (p : Bool),
      attempts + remaining ≤ w →
      (∀ j, attempts ≤ j → j < attempts + remaining → polls j = FetchResult.err) →
      pollLoop polls w remaining attempts r p = (r, p, attempts + remaining) := by
  intro remaining
  induction remaining with
  | zero => intro attempts r p _ _; simp [pollLoop]
  | succ n ih =>
    intro attempts r p h hall
    have hne : ¬ attempts = w := by omega
    have hcur : polls attempts = FetchResult.err :=
      hall attempts (Nat.le_refl _) (by omega)
    simp only [pollLoop, hcur, hne, if_false]
    have := ih (attempts + 1) r p (by omega)
      (fun j hj1 hj2 => hall j (by omega) (by omega))
    rw [this]
    have harith : attempts + 1 + n = attempts + (n + 1) := by omega
    rw [harith]

theorem pollLoop_break (polls : Nat → FetchResult) (w : Nat) :
    ∀ (remaining attempts : Nat) (r : Response) (p : Bool) (i : Nat),
      attempts ≤ i → i < attempts + remaining →
      polls i = FetchResult.ok false →
      (∀ j, attempts ≤ j → j < i → polls j ≠ FetchResult.ok false) →
      pollLoop polls w remaining attempts r p = (pollSuccessResp, false, i + 1) := by
  intro remaining
  induction remaining with
  | zero => intro attempts r p i h1 h2 _ _; omega
  | succ n ih =>
    intro attempts r p i h1 h2 hi hbefore
    by_cases hcur : attempts = i
    · subst hcur
      simp only [pollLoop, hi, if_false]
      rfl
    · have hlt : attempts < i := by omega
      have hnotbreak : polls attempts ≠ FetchResult.ok false :=
        hbefore attempts (Nat.le_refl _) hlt
      simp only [pollLoop]
      cases hpoll : polls attempts with
      | ok hasMetadata =>
        cases hasMetadata with
        | false => exact absurd hpoll hnotbreak
        | true =>
          exact ih (attempts + 1) r true i (by omega) (by omega) hi
            (fun j hj1 hj2 => hbefore j (by omega) hj2)
      | err =>
        exact ih (attempts + 1) _ p i (by omega) (by omega) hi
          (fun j hj1 hj2 => hbefore j (by omega) hj2)

theorem pollLoop_count_ge (polls : Nat → FetchResult) (w : Nat) :
    ∀ (remaining attempts : Nat) (r : Response) (p : Bool),
      attempts ≤ (pollLoop polls w remaining attempts r p).2.2 := by
  intro remaining
  induction remaining with
  | zero => intro attempts r p; exact Nat.le_refl _
  | succ n ih =>
    intro attempts r p
    simp only [pollLoop]
    cases hpoll : polls attempts with
    | ok hasMetadata =>
      cases hasMetadata with
      | false => exact Nat.le_succ _
      | true => exact Nat.le_trans (Nat.le_succ _) (ih (attempts + 1) r true)
    | err =>
      exact Nat.le_trans (Nat.le_succ _) (ih (attempts + 1) _ p)

theorem pollLoop_count_pos (polls : Nat → FetchResult) (w : Nat)
    (remaining attempts : Nat) (r : Response) (p : Bool) (h : 0 < remaining) :
    attempts < (pollLoop polls w remaining attempts r p).2.2 := by
  cases remaining with
  | zero => omega
  | succ n =>
    simp only [pollLoop]
    cases hpoll : polls attempts with
    | ok hasMetadata =>
      cases hasMetadata with
      | false => exact Nat.lt_succ_self _
      | true =>
        exact Nat.lt_of_lt_of_le (Nat.lt_succ_self _)
          (pollLoop_count_ge polls w n (attempts + 1) r true)
    | err =>
      exact Nat.lt_of_lt_of_le (Nat.lt_succ_self _)
        (pollLoop_count_ge polls w n (attempts + 1) _ p)

theorem projectDecision_success_inv
    (pend ex cont : Bool) (r : Response) (f : Nat) (dpr : DeleteProjResult)
    (h : (projectDecision pend ex cont r f dpr).argoDeleteProjectResp.status =
      "success") :
    (pend && ex) = false ∧ cont = true := by
  cases pend <;> cases ex <;> cases cont <;>
    rcases dpr with _ | (_ | m) <;> simp_all [projectDecision]

theorem projectDecision_not_pending
    (ex cont : Bool) (r : Response) (f : Nat) (dpr : DeleteProjResult) :
    (projectDecision false ex cont r f dpr).argoDeleteAppResp = r ∧
      (projectDecision false ex cont r f dpr).fetchCount = f := by
  cases cont <;> rcases dpr with _ | (_ | m) <;> simp [projectDecision]

theorem projectDecision_fetchCount
    (pend ex cont : Bool) (r : Response) (f : Nat) (dpr : DeleteProjResult) :
    (projectDecision pend ex cont r f dpr).fetchCount = f := by
  cases pend <;> cases ex <;> cases cont <;>
    rcases dpr with _ | (_ | m) <;> simp [projectDecision]

theorem projectDecision_skip_cont_false
    (ex : Bool) (r : Response) (f : Nat) (dpr : DeleteProjResult) :
    projectDecision false ex false r f dpr =
      { argoDeleteAppResp := r
        argoDeleteProjectResp :=
          ⟨"failed", "skipping project deletion due to erro deleting argo app"⟩
        fetchCount := f
        projectDeleteCalled := false } := by
  simp [projectDecision]

theorem resolveToken_calls (inst : ArgoInstance)
    (t : Except JsError String) :
    (resolveToken inst t).2 = [ClientCall.getArgoToken] ∨
      (resolveToken inst t).2 = [] := by
  unfold resolveToken
  by_cases h : optStrFalsy inst.token = true <;> simp [h]

theorem deleteWorkflow_exist_true (w : Nat) (dar : DeleteAppCallResult)
    (polls : Nat → FetchResult) (dpr : DeleteProjResult)
    (hex : (step2 dar).2.2 = true) :
    deleteWorkflow w dar polls dpr =
      projectDecision (pollLoop polls w w 0 (step2 dar).1 false).2.1 true
        (step2 dar).2.1 (pollLoop polls w w 0 (step2 dar).1 false).1
        (pollLoop polls w w 0 (step2 dar).1 false).2.2 dpr := by
  simp only [deleteWorkflow, hex, if_true]

theorem deleteWorkflow_exist_false (w : Nat) (dar : DeleteAppCallResult)
    (polls : Nat → FetchResult) (dpr : DeleteProjResult)
    (hex : (step2 dar).2.2 = false) :
    deleteWorkflow w dar polls dpr =
      projectDecision false false (step2 dar).2.1 (step2 dar).1 0 dpr := by
  simp only [deleteWorkflow, hex, if_false, Bool.false_eq_true]

/-! Claim theorems. -/

/-- Claim C1, counterexample: with `waitCycles = 5` and every `getArgoAppData`
poll call throwing (the final attempt included), the app-deletion outcome is
not recorded as failed with message "error getting argo app data" — the
response keeps its initial empty status and message, because the guard
`attempts === argoWaitCycles` never holds inside a loop bounded by
`attempts < argoWaitCycles`. -/
theorem claim1_counterexample :
    (deleteWorkflow 5 (DeleteAppCallResult.resolved true)
      (fun _ => FetchResult.err) DeleteProjResult.resolved).argoDeleteAppResp.status
        ≠ "failed" ∧
    (deleteWorkflow 5 (DeleteAppCallResult.resolved true)
      (fun _ => FetchResult.err) DeleteProjResult.resolved).argoDeleteAppResp.message
        ≠ "error getting argo app data" := by
  decide

/-- Claim C1, amended: the failed/"error getting argo app data" outcome is
guarded by the source condition `attempts === argoWaitCycles`, which is never
satisfied in a loop running `attempts = 0 .. argoWaitCycles - 1`; hence fetch
errors on every attempt — the final one included — are swallowed and retried,
and the poll loop leaves the app-deletion response either untouched or set to
the success response, never to the error-getting-app-data failure. -/
theorem claim1_amended_error_never_recorded (w : Nat)
    (polls : Nat → FetchResult) (r : Response) (p : Bool) :
    (pollLoop polls w w 0 r p).1 = r ∨
      (pollLoop polls w w 0 r p).1 = pollSuccessResp :=
  pollLoop_fst_eq_or polls w w 0 r p (by omega)

/-- Claim C2: the project-deletion outcome never has status "success" when the
application deletion left the app pending or indeterminate — when the poll
loop ended with the application still present (`appStillPending`), or when
`deleteApp` returned `false`. -/
theorem claim2_project_never_success (w : Nat) (dar : DeleteAppCallResult)
    (polls : Nat → FetchResult) (dpr : DeleteProjResult)
    (h : appStillPending w dar polls = true ∨
      dar = DeleteAppCallResult.resolved false) :
    (deleteWorkflow w dar polls dpr).argoDeleteProjectResp.status ≠ "success" := by
  intro hsucc
  rcases h with h | h
  · unfold appStillPending at h
    rw [Bool.and_eq_true] at h
    obtain ⟨hex, hpend⟩ := h
    rw [deleteWorkflow_exist_true w dar polls dpr hex] at hsucc
    obtain ⟨h1, _⟩ := projectDecision_success_inv _ _ _ _ _ _ hsucc
    rw [hpend] at h1
    simp at h1
  · subst h
    rw [deleteWorkflow_exist_true w (DeleteAppCallResult.resolved false) polls
      dpr rfl] at hsucc
    obtain ⟨_, h2⟩ := projectDecision_success_inv _ _ _ _ _ _ hsucc
    simp [step2] at h2

/-- Claim C2, witness: a concrete request where `deleteApp` returned `false`
and the first poll saw the app gone; the project outcome is still not a
success. -/
theorem claim2_witness :
    (deleteWorkflow 1 (DeleteAppCallResult.resolved false)
      (fun _ => FetchResult.ok false)
      DeleteProjResult.resolved).argoDeleteProjectResp.status ≠ "success" :=
  claim2_project_never_success 1 (DeleteAppCallResult.resolved false)
    (fun _ => FetchResult.ok false) DeleteProjResult.resolved (Or.inr rfl)

/-- Claim C3, counterexample: when `deleteApp` returns `false` (deletion
rejected), the poll loop still runs — with `waitCycles = 1` and a poll result
still carrying metadata, one `getArgoAppData` fetch is performed, contradicting
the claim that no poll fetch happens in this case (`isAppexist` is not cleared
by the `deleteAppResp === false` branch). -/
theorem claim3_counterexample :
    (deleteWorkflow 1 (DeleteAppCallResult.resolved false)
      (fun _ => FetchResult.ok true) DeleteProjResult.resolved).fetchCount ≠ 0 := by
  decide

/-- Claim C3, amended: the poll loop is skipped only when the client signalled
the application does not exist (`deleteApp` threw an error with a string
message, clearing `isAppexist`): then no `getArgoAppData` fetch is performed.
When `deleteApp` returns `false`, polling still runs: with a positive
`waitCycles`, at least one `getArgoAppData` fetch is performed. -/
theorem claim3_amended_poll_condition (w : Nat) (polls : Nat → FetchResult)
    (dpr : DeleteProjResult) (m : String) :
    (deleteWorkflow w (DeleteAppCallResult.thrown (some m)) polls dpr).fetchCount
        = 0 ∧
    (0 < w →
      0 < (deleteWorkflow w (DeleteAppCallResult.resolved false) polls
        dpr).fetchCount) := by
  constructor
  · rw [deleteWorkflow_exist_false w (DeleteAppCallResult.thrown (some m))
      polls dpr rfl]
    exact projectDecision_fetchCount _ _ _ _ _ _
  · intro hw
    rw [deleteWorkflow_exist_true w (DeleteAppCallResult.resolved false) polls
      dpr rfl]
    rw [projectDecision_fetchCount]
    exact pollLoop_count_pos polls w w 0 _ false hw

/-- Claim C3, amended, witness: with `waitCycles = 1`, a thrown "x" error makes
zero fetches, while a `false` return still makes a fetch. -/
theorem claim3_amended_witness :
    (deleteWorkflow 1 (DeleteAppCallResult.thrown (some "x"))
      (fun _ => FetchResult.ok true) DeleteProjResult.resolved).fetchCount = 0 ∧
    0 < (deleteWorkflow 1 (DeleteAppCallResult.resolved false)
      (fun _ => FetchResult.ok true) DeleteProjResult.resolved).fetchCount :=
  ⟨(claim3_amended_poll_condition 1 (fun _ => FetchResult.ok true)
      DeleteProjResult.resolved "x").1,
    (claim3_amended_poll_condition 1 (fun _ => FetchResult.ok true)
      DeleteProjResult.resolved "x").2 (by decide)⟩

/-- Claim C4: when polling runs (the app was considered to exist) for the full
`waitCycles` attempts and every `getArgoAppData` result still contains
metadata, the final composite result is the failed "application pending
delete" app outcome and the failed "skipping project deletion due to app
deletion pending" project outcome, with `deleteProject` not invoked (and
exactly `waitCycles` fetches made). -/
theorem claim4_pending_exhaustion (w : Nat) (dar : DeleteAppCallResult)
    (polls : Nat → FetchResult) (dpr : DeleteProjResult)
    (hw : 0 < w) (hex : (step2 dar).2.2 = true)
    (hall : ∀ j, j < w → polls j = FetchResult.ok true) :
    deleteWorkflow w dar polls dpr =
      { argoDeleteAppResp := ⟨"failed", "application pending delete"⟩
        argoDeleteProjectResp :=
          ⟨"failed", "skipping project deletion due to app deletion pending"⟩
        fetchCount := w
        projectDeleteCalled := false } := by
  rw [deleteWorkflow_exist_true w dar polls dpr hex]
  rw [pollLoop_all_meta polls w w 0 (step2 dar).1 false hw
    (fun j h1 h2 => hall j (by omega))]
  cases hc : (step2 dar).2.1 <;>
    rcases dpr with _ | (_ | m) <;>
    simp [projectDecision]

/-- Claim C4, witness: `waitCycles = 1`, clean `deleteApp`, one metadata-laden
poll. -/
theorem claim4_witness :
    deleteWorkflow 1 (DeleteAppCallResult.resolved true)
      (fun _ => FetchResult.ok true) DeleteProjResult.resolved =
      { argoDeleteAppResp := ⟨"failed", "application pending delete"⟩
        argoDeleteProjectResp :=
          ⟨"failed", "skipping project deletion due to app deletion pending"⟩
        fetchCount := 1
        projectDeleteCalled := false } :=
  claim4_pending_exhaustion 1 (DeleteAppCallResult.resolved true)
    (fun _ => FetchResult.ok true) DeleteProjResult.resolved
    (by decide) (by decide) (fun _ _ => rfl)

/-- Claim C5, counterexample: `deleteApp` returns `false`, yet because the
first poll fetch lacks metadata the app-deletion outcome ends as "success",
not "failed" — the poll overwrites the failed response recorded by the
`deleteAppResp === false` branch. -/
theorem claim5_counterexample :
    (deleteWorkflow 5 (DeleteAppCallResult.resolved false)
      (fun _ => FetchResult.ok false)
      DeleteProjResult.resolved).argoDeleteAppResp.status ≠ "failed" := by
  decide

/-- Claim C5, amended: when `deleteApp` returns `false` and the subsequent
poll never observes the application (every fetch errors), the app-deletion
outcome is failed with "error with deleteing argo app" and the project is
skipped with the "skipping project deletion due to erro deleting argo app"
message; when a poll fetch does resolve, it can overwrite the app outcome. -/
theorem claim5_amended_unobserved (w : Nat) (polls : Nat → FetchResult)
    (dpr : DeleteProjResult)
    (hall : ∀ j, j < w → polls j = FetchResult.err) :
    deleteWorkflow w (DeleteAppCallResult.resolved false) polls dpr =
      { argoDeleteAppResp := ⟨"failed", "error with deleteing argo app"⟩
        argoDeleteProjectResp :=
          ⟨"failed", "skipping project deletion due to erro deleting argo app"⟩
        fetchCount := w
        projectDeleteCalled := false } := by
  rw [deleteWorkflow_exist_true w (DeleteAppCallResult.resolved false) polls
    dpr rfl]
  rw [pollLoop_all_err polls w w 0 _ false (by omega)
    (fun j h1 h2 => hall j (by omega))]
  rcases dpr with _ | (_ | m) <;> simp [projectDecision, step2]

/-- Claim C5, amended, witness: `waitCycles = 1`, a single erroring fetch. -/
theorem claim5_amended_witness :
    deleteWorkflow 1 (DeleteAppCallResult.resolved false)
      (fun _ => FetchResult.err) DeleteProjResult.resolved =
      { argoDeleteAppResp := ⟨"failed", "error with deleteing argo app"⟩
        argoDeleteProjectResp :=
          ⟨"failed", "skipping project deletion due to erro deleting argo app"⟩
        fetchCount := 1
        projectDeleteCalled := false } :=
  claim5_amended_unobserved 1 (fun _ => FetchResult.err)
    DeleteProjResult.resolved (fun _ _ => rfl)

/-- Claim C6: when `deleteApp` throws an error with a string message, the
app-deletion outcome is failed carrying that message, yet `deleteProject` is
still invoked, and when that call resolves the project outcome is the success
response (with zero poll fetches, since the app was marked non-existent). -/
theorem claim6_not_found_still_deletes_project (w : Nat) (m : String)
    (polls : Nat → FetchResult) (dpr : DeleteProjResult) :
    (deleteWorkflow w (DeleteAppCallResult.thrown (some m))
        polls dpr).argoDeleteAppResp = ⟨"failed", m⟩ ∧
    (deleteWorkflow w (DeleteAppCallResult.thrown (some m))
        polls dpr).projectDeleteCalled = true ∧
    deleteWorkflow w (DeleteAppCallResult.thrown (some m)) polls
        DeleteProjResult.resolved =
      { argoDeleteAppResp := ⟨"failed", m⟩
        argoDeleteProjectResp := ⟨"success", "project is deleted successfully"⟩
        fetchCount := 0
        projectDeleteCalled := true } := by
  rw [deleteWorkflow_exist_false w (DeleteAppCallResult.thrown (some m))
    polls dpr rfl]
  rw [deleteWorkflow_exist_false w (DeleteAppCallResult.thrown (some m))
    polls DeleteProjResult.resolved rfl]
  refine ⟨?_, ?_, ?_⟩ <;>
    rcases dpr with _ | (_ | mm) <;> simp [projectDecision, step2]

/-- Claim C7: during polling, if attempt `k` (1-based, `k ≤ waitCycles`) is
the first whose fetch resolves without metadata, the loop stops with the
success app outcome "application is deleted successfully" and exactly `k`
`getArgoAppData` calls were made. -/
theorem claim7_poll_breaks_at_k (w : Nat) (dar : DeleteAppCallResult)
    (polls : Nat → FetchResult) (dpr : DeleteProjResult) (k : Nat)
    (hex : (step2 dar).2.2 = true) (hk1 : 1 ≤ k) (hk2 : k ≤ w)
    (hbreak : polls (k - 1) = FetchResult.ok false)
    (hbefore : ∀ j, j < k - 1 → polls j ≠ FetchResult.ok false) :
    (deleteWorkflow w dar polls dpr).argoDeleteAppResp =
        ⟨"success", "application is deleted successfully"⟩ ∧
    (deleteWorkflow w dar polls dpr).fetchCount = k := by
  rw [deleteWorkflow_exist_true w dar polls dpr hex]
  rw [pollLoop_break polls w w 0 (step2 dar).1 false (k - 1) (by omega)
    (by omega) hbreak (fun j _ hj2 => hbefore j hj2)]
  have hk : k - 1 + 1 = k := by omega
  rw [hk]
  exact ⟨(projectDecision_not_pending _ _ _ _ _).1,
    (projectDecision_not_pending _ _ _ _ _).2⟩

/-- Claim C7, witness: `waitCycles = 3`, metadata present on the first
attempt, gone on the second: success outcome after exactly 2 fetches. -/
theorem claim7_witness :
    (deleteWorkflow 3 (DeleteAppCallResult.resolved true)
      (fun n => if n = 1 then FetchResult.ok false else FetchResult.ok true)
      DeleteProjResult.resolved).argoDeleteAppResp =
        ⟨"success", "application is deleted successfully"⟩ ∧
    (deleteWorkflow 3 (DeleteAppCallResult.resolved true)
      (fun n => if n = 1 then FetchResult.ok false else FetchResult.ok true)
      DeleteProjResult.resolved).fetchCount = 2 :=
  claim7_poll_breaks_at_k 3 (DeleteAppCallResult.resolved true)
    (fun n => if n = 1 then FetchResult.ok false else FetchResult.ok true)
    DeleteProjResult.resolved 2 (by decide) (by decide) (by decide)
    (by decide) (by decide)

/-- Claim C8: when `deleteApp` returns `false` but a later poll fetch (the
first one to do so) resolves without metadata, the composite result has the
success app outcome while the project outcome is the failed "skipping project
deletion due to erro deleting argo app" — the poll overwrites the failed app
outcome while project deletion stays blocked. -/
theorem claim8_success_overwrite_with_blocked_project (w : Nat)
    (polls : Nat → FetchResult) (dpr : DeleteProjResult) (k : Nat)
    (hk : k < w) (hbreak : polls k = FetchResult.ok false)
    (hbefore : ∀ j, j < k → polls j ≠ FetchResult.ok false) :
    (deleteWorkflow w (DeleteAppCallResult.resolved false) polls
        dpr).argoDeleteAppResp =
      ⟨"success", "application is deleted successfully"⟩ ∧
    (deleteWorkflow w (DeleteAppCallResult.resolved false) polls
        dpr).argoDeleteProjectResp =
      ⟨"failed", "skipping project deletion due to erro deleting argo app"⟩ := by
  rw [deleteWorkflow_exist_true w (DeleteAppCallResult.resolved false) polls
    dpr rfl]
  rw [pollLoop_break polls w w 0 (step2 (DeleteAppCallResult.resolved false)).1
    false k (by omega) (by omega) hbreak (fun j _ hj2 => hbefore j hj2)]
  rw [show (step2 (DeleteAppCallResult.resolved false)).2.1 = false from rfl]
  rw [projectDecision_skip_cont_false]
  exact ⟨rfl, rfl⟩

/-- Claim C8, witness: `waitCycles = 1`, `deleteApp` returns `false`, the one
poll fetch sees the app gone. -/
theorem claim8_witness :
    (deleteWorkflow 1 (DeleteAppCallResult.resolved false)
      (fun _ => FetchResult.ok false)
      DeleteProjResult.resolved).argoDeleteAppResp =
        ⟨"success", "application is deleted successfully"⟩ ∧
    (deleteWorkflow 1 (DeleteAppCallResult.resolved false)
      (fun _ => FetchResult.ok false)
      DeleteProjResult.resolved).argoDeleteProjectResp =
        ⟨"failed", "skipping project deletion due to erro deleting argo app"⟩ :=
  claim8_success_overwrite_with_blocked_project 1
    (fun _ => FetchResult.ok false) DeleteProjResult.resolved 0
    (by decide) (by decide) (by decide)

/-- Claim C9: for any instance name absent from the directory, every
instance-scoped handler — get by name or selector, create, delete — returns
HTTP 500 with body `{status: 'failed', message: 'cannot find an argo instance
to match this cluster'}` and makes no client call at all (in particular no
token resolution). -/
theorem claim9_instance_not_found (ge : GetAppEnv) (ce : CreateArgoEnv)
    (de : DeleteArgoEnv)
    (h1 : matchInstance ge.argoInstanceArray ge.argoInstanceName = none)
    (h2 : matchInstance ce.argoInstanceArray ce.clusterName = none)
    (h3 : matchInstance de.argoInstanceArray de.argoInstanceName = none) :
    getArgoAppHandler ge =
      (HandlerResult.http 500 (RespBody.statusMessage (JsonVal.str "failed")
        (JsonVal.str "cannot find an argo instance to match this cluster")),
        []) ∧
    createArgoHandler ce =
      (HandlerResult.http 500 (RespBody.statusMessage (JsonVal.str "failed")
        (JsonVal.str "cannot find an argo instance to match this cluster")),
        []) ∧
    deleteArgoHandler de =
      (HandlerResult.http 500 (RespBody.statusMessage (JsonVal.str "failed")
        (JsonVal.str "cannot find an argo instance to match this cluster")),
        []) := by
  refine ⟨?_, ?_, ?_⟩
  · unfold getArgoAppHandler
    rw [h1]
    rfl
  · unfold createArgoHandler
    rw [h2]
    rfl
  · unfold deleteArgoHandler
    rw [h3]
    rfl


/-- Claim C9, witness: an empty instance directory, so the name "prod" cannot
match. -/
theorem claim9_witness :
    getArgoAppHandler
      { argoInstanceArray := [], argoInstanceName := "prod"
        query := AppQuery.byName "app", getArgoTokenResult := Except.ok "t"
        getArgoAppDataResult := Except.ok ⟨true, ""⟩ } =
      (HandlerResult.http 500 (RespBody.statusMessage (JsonVal.str "failed")
        (JsonVal.str "cannot find an argo instance to match this cluster")),
        []) ∧
    createArgoHandler
      { argoInstanceArray := [], clusterName := "prod"
        namespaceName := "ns", projectName := "p", appName := "a"
        labelValue := "l", sourceRepo := "r", sourcePath := "s"
        getArgoTokenResult := Except.ok "t"
        createArgoProjectResult := Except.ok ()
        createArgoApplicationResult := Except.ok () } =
      (HandlerResult.http 500 (RespBody.statusMessage (JsonVal.str "failed")
        (JsonVal.str "cannot find an argo instance to match this cluster")),
        []) ∧
    deleteArgoHandler
      { argoInstanceArray := [], argoInstanceName := "prod"
        argoAppName := "a", argoWaitCycles := 5
        getArgoTokenResult := Except.ok "t"
        deleteAppResult := DeleteAppCallResult.resolved true
        polls := fun _ => FetchResult.ok false
        deleteProjectResult := DeleteProjResult.resolved } =
      (HandlerResult.http 500 (RespBody.statusMessage (JsonVal.str "failed")
        (JsonVal.str "cannot find an argo instance to match this cluster")),
        []) :=
  claim9_instance_not_found _ _ _ rfl rfl rfl

/-- Claim C10: in `/createArgo`, when the instance is found and the token step
succeeds but `createArgoProject` throws, the handler responds with HTTP status
`e.status || 500` and body `{status: e.status, message: e.message || 'Failed
to create argo project'}`, and `createArgoApplication` is never invoked. -/
theorem claim10_project_creation_fails (ce : CreateArgoEnv)
    (inst : ArgoInstance) (tok : String) (e : JsError)
    (h1 : matchInstance ce.argoInstanceArray ce.clusterName = some inst)
    (h2 : (resolveToken inst ce.getArgoTokenResult).1 = Except.ok tok)
    (h3 : ce.createArgoProjectResult = Except.error e) :
    createArgoHandler ce =
      (HandlerResult.http (jsOrNum e.status 500)
        (RespBody.statusMessage (jsonOfOptNat e.status)
          (JsonVal.str (jsOrStr e.message "Failed to create argo project"))),
        (resolveToken inst ce.getArgoTokenResult).2 ++
          [ClientCall.createArgoProject]) ∧
    ClientCall.createArgoApplication ∉ (createArgoHandler ce).2 := by
  have hmain : createArgoHandler ce =
      (HandlerResult.http (jsOrNum e.status 500)
        (RespBody.statusMessage (jsonOfOptNat e.status)
          (JsonVal.str (jsOrStr e.message "Failed to create argo project"))),
        (resolveToken inst ce.getArgoTokenResult).2 ++
          [ClientCall.createArgoProject]) := by
    unfold createArgoHandler
    rw [h1]
    simp only []
    rw [h2, h3]
  refine ⟨hmain, ?_⟩
  rw [hmain]
  rcases resolveToken_calls inst ce.getArgoTokenResult with hc | hc <;>
    rw [hc] <;> simp

/-- Claim C10, witness: instance "prod" with a static token; project creation
throws `{status: 403, message: 'denied'}`; the response is 403/denied and
`createArgoApplication` is not among the calls made. -/
theorem claim10_witness :
    createArgoHandler
      { argoInstanceArray :=
          [{ name := "prod", url := "https://argo.example.com"
             token := some "tok2", username := none, password := none }]
        clusterName := "prod"
        namespaceName := "ns", projectName := "p", appName := "a"
        labelValue := "l", sourceRepo := "r", sourcePath := "s"
        getArgoTokenResult := Except.ok "unused"
        createArgoProjectResult :=
          Except.error { status := some 403, message := some "denied" }
        createArgoApplicationResult := Except.ok () } =
      (HandlerResult.http 403
        (RespBody.statusMessage (JsonVal.num 403) (JsonVal.str "denied")),
        [ClientCall.createArgoProject]) ∧
    ClientCall.createArgoApplication ∉
      (createArgoHandler
        { argoInstanceArray :=
            [{ name := "prod", url := "https://argo.example.com"
               token := some "tok2", username := none, password := none }]
          clusterName := "prod"
          namespaceName := "ns", projectName := "p", appName := "a"
          labelValue := "l", sourceRepo := "r", sourcePath := "s"
          getArgoTokenResult := Except.ok "unused"
          createArgoProjectResult :=
            Except.error { status := some 403, message := some "denied" }
          createArgoApplicationResult := Except.ok () }).2 :=
  claim10_project_creation_fails _
    { name := "prod", url := "https://argo.example.com"
      token := some "tok2", username := none, password := none }
    "tok2" { status := some 403, message := some "denied" } rfl rfl rfl

end ArgoRouter
